import Mathlib

/-!
Shallow embedding of the minimal unit-test harness in `unit.c` (the test
driver of the libforth repository), together with theorems settling the
frozen claims about it.

The harness keeps its whole state in C globals (`passed`, `failed`,
`jmpbuf_active`, `is_silent`, `current_line`, `current_result`,
`current_expr`, `caught_signal`, the SIGABRT disposition and what has been
printed so far).  We model that state as a record and every C function or
macro as an explicit state-transformer.  The evaluation of the tested
expression `EXPR` inside the `test` macro either completes with a boolean
value or is interrupted by a delivered abort-class signal; that outside
behaviour is an explicit `Eval` event fed to the step function.
-/

namespace UnitHarness

/-- Process-wide disposition of SIGABRT: either the custom handler
`sig_abrt_handler` is installed, or the default disposition `SIG_DFL`. -/
inductive Disposition where
  | handler
  | dfl
deriving DecidableEq, Repr

/-- One line of output, abstracting the printf formats of `unit.c`.
The payloads keep exactly the data the C format strings interpolate. -/
inductive Line where
  | ok (msg : String)
  | failedL (msg : String) (line : Nat)
  | stateL (stmt : String)
  | mustL (expr : String)
  | note (name : String)
  | caught (sigName : String) (n : Int)
  | banner (name : String)
  | summary (name : String) (passed : Nat) (total : Nat)
deriving DecidableEq, Repr

/-- The globals of `unit.c` (lines 25-34 and 85), plus the output stream.
`current_result` is an `int` only ever assigned 0/1 by `unit_tester`, so we
model it as `Bool`; `current_line` is the `unsigned` line counter;
`caught_signal` is a C `int`, hence `Int`. -/
structure State where
  passed : Nat
  failed : Nat
  color_on : Bool
  jmpbuf_active : Bool
  is_silent : Bool
  current_line : Nat
  current_result : Bool
  current_expr : String
  caught_signal : Int
  disposition : Disposition
  output : List Line
deriving DecidableEq, Repr

/-- Initial values of the C globals (statics are zero-initialised; the
SIGABRT disposition starts as the default). -/
def initState : State :=
  { passed := 0, failed := 0, color_on := false, jmpbuf_active := false,
    is_silent := false, current_line := 0, current_result := false,
    current_expr := "", caught_signal := 0, disposition := Disposition.dfl,
    output := [] }

/-- `unit_tester` (unit.c lines 42-54): increments `passed` on a true test
and `failed` on a false one, prints the ok/FAILED line unless silent, and
returns its `test` argument. -/
def unit_tester (s : State) (test : Bool) (msg : String) (line : Nat) :
    State × Bool :=
  if test then
    ({ s with passed := s.passed + 1,
              output := if s.is_silent then s.output
                        else s.output ++ [Line.ok msg] }, test)
  else
    ({ s with failed := s.failed + 1,
              output := if s.is_silent then s.output
                        else s.output ++ [Line.failedL msg line] }, test)

/-- `print_must` (unit.c lines 62-66). -/
def print_must (s : State) (must : String) : State :=
  if s.is_silent then s else { s with output := s.output ++ [Line.mustL must] }

/-- `print_statement` (unit.c lines 56-60). -/
def print_statement (s : State) (stmt : String) : State :=
  if s.is_silent then s
  else { s with output := s.output ++ [Line.stateL stmt] }

/-- `MAX_SIGNALS` (unit.c line 74). -/
def MAX_SIGNALS : Nat := 256

/-- The designated initializers of the `sig_lookup` array (unit.c lines
75-83), as a function from index to entry, with the Linux/glibc values of
the six C89 signal macros: SIGINT=2, SIGILL=4, SIGABRT=6, SIGFPE=8,
SIGSEGV=11, SIGTERM=15.  Every other slot is a null pointer, `none`. -/
def sig_lookup_entry (i : Nat) : Option String :=
  if i = 2 then some "SIGINT"
  else if i = 4 then some "SIGILL"
  else if i = 6 then some "SIGABRT"
  else if i = 8 then some "SIGFPE"
  else if i = 11 then some "SIGSEGV"
  else if i = 15 then some "SIGTERM"
  else none

/-- The `sig_lookup` array itself: the designator `[MAX_SIGNALS] = NULL`
forces the array to have `MAX_SIGNALS + 1 = 257` elements. -/
def sig_lookup : List (Option String) :=
  (List.range (MAX_SIGNALS + 1)).map sig_lookup_entry

/-- The signal name chosen by `print_caught_signal_name` (unit.c lines
86-93): `sig_name` starts as "UNKNOWN SIGNAL" and is replaced only when
`0 < caught_signal && caught_signal < MAX_SIGNALS` and the array entry at
that index is non-null.  The short-circuit `&&` means the array is read
only after both bounds checks hold, which the guarded `if` reflects. -/
def sig_name_of (cs : Int) : String :=
  (if 0 < cs ∧ cs < (MAX_SIGNALS : Int) then sig_lookup.getD cs.toNat none
   else none).getD "UNKNOWN SIGNAL"

/-- `print_caught_signal_name` (unit.c lines 86-93) as a state
transformer: prints the caught line unless silent. -/
def print_caught_signal_name (s : State) : State :=
  if s.is_silent then s
  else { s with output :=
          s.output ++ [Line.caught (sig_name_of s.caught_signal) s.caught_signal] }

/-- `sig_abrt_handler` (unit.c lines 95-102): stores the delivered signal
number into `caught_signal` unconditionally; if `jmpbuf_active` it clears
the flag and performs the `longjmp` (the returned `Bool` tells whether the
non-local transfer happened). -/
def sig_abrt_handler (s : State) (sig : Int) : State × Bool :=
  let s1 := { s with caught_signal := sig }
  if s1.jmpbuf_active then ({ s1 with jmpbuf_active := false }, true)
  else (s1, false)

/-- How the evaluation of `EXPR` inside the `test` macro behaves: it either
completes with a boolean value `(EXPR) != 0`, or it is interrupted by a
delivered abort-class signal with number `n` (caught by the armed
handler). -/
inductive Eval where
  | ok (b : Bool)
  | signal (n : Int)
deriving DecidableEq, Repr

/-- The entry sequence of the `test` macro (unit.c lines 110-112):
`current_line = __LINE__; current_expr = #EXPR;
signal(SIGABRT, sig_abrt_handler);`. -/
def testEntry (s : State) (line : Nat) (expr : String) : State :=
  { s with current_line := line, current_expr := expr,
           disposition := Disposition.handler }

/-- The state in which `EXPR` is evaluated: after `testEntry`, `setjmp`
returned 0 and `jmpbuf_active = 1` was executed (unit.c lines 113-114), so
the expression runs with the handler installed and the trap armed. -/
def evalPointState (s : State) (line : Nat) (expr : String) : State :=
  { testEntry s line expr with jmpbuf_active := true }

/-- The then-branch of the `test` macro (unit.c line 115), taken when the
evaluation of `EXPR` completed normally with boolean value `b`:
`current_result = unit_tester(((EXPR) != 0), current_expr, current_line)`. -/
def okBranch (s : State) (b : Bool) : State :=
  let p := unit_tester s b s.current_expr s.current_line
  { p.1 with current_result := p.2 }

/-- The else-branch of the `test` macro (unit.c lines 116-120), reached by
`longjmp` from the handler after a signal with number `n` interrupted the
evaluation.  First the handler itself ran (storing `n` and clearing
`jmpbuf_active`), then `print_caught_signal_name()`, then
`current_line = unit_tester(0, current_expr, current_line)` — the source
stores the failure result in `current_line`, not in `current_result` —
and finally `signal(SIGABRT, sig_abrt_handler)` re-installs the handler. -/
def signalBranch (s : State) (n : Int) : State :=
  let s1 := (sig_abrt_handler s n).1
  let s2 := print_caught_signal_name s1
  let p := unit_tester s2 false s2.current_expr s2.current_line
  let s3 := { p.1 with current_line := if p.2 then 1 else 0 }
  { s3 with disposition := Disposition.handler }

/-- The common exit of the `test` macro (unit.c lines 121-122):
`signal(SIGABRT, SIG_DFL); jmpbuf_active = 0;`. -/
def testExit (s : State) : State :=
  { s with disposition := Disposition.dfl, jmpbuf_active := false }

/-- One invocation of the `test` macro (unit.c lines 108-123). -/
def runTest (s : State) (line : Nat) (expr : String) (ev : Eval) : State :=
  let s1 := evalPointState s line expr
  match ev with
  | Eval.ok b => testExit (okBranch s1 b)
  | Eval.signal n => testExit (signalBranch s1 n)

/-- One invocation of the `must` macro (unit.c lines 125-132):
`print_must(#EXPR); test(EXPR); if(!current_result) exit(-1);`.
The second component is `some status` when the process terminated via
`exit` with that argument, `none` when control falls through. -/
def runMust (s : State) (line : Nat) (expr : String) (ev : Eval) :
    State × Option Int :=
  let s1 := print_must s expr
  let s2 := runTest s1 line expr ev
  if s2.current_result then (s2, none) else (s2, some (-1))

/-- One assertion call of the suite body: a `test` or a `must` invocation
with its source line, expression text and evaluation behaviour. -/
inductive Cmd where
  | test (line : Nat) (expr : String) (ev : Eval)
  | must (line : Nat) (expr : String) (ev : Eval)
deriving DecidableEq, Repr

/-- Run a sequence of assertion calls in program order.  A `must` whose
`exit` fires terminates the run at once: the remaining commands never
execute and the second component records the exit status. -/
def runCmds (s : State) : List Cmd → State × Option Int
  | [] => (s, none)
  | Cmd.test line expr ev :: cs => runCmds (runTest s line expr ev) cs
  | Cmd.must line expr ev :: cs =>
      match runMust s line expr ev with
      | (s1, none) => runCmds s1 cs
      | (s1, some e) => (s1, some e)

/-- `unit_test_start` (unit.c lines 142-153), successful-installation path:
installs the SIGABRT handler and prints the banner unless silent. -/
def unit_test_start (s : State) (name : String) : State :=
  let s1 := { s with disposition := Disposition.handler }
  if s1.is_silent then s1 else { s1 with output := s1.output ++ [Line.banner name] }

/-- `unit_test_end` (unit.c lines 155-162): prints the summary unless
silent and returns the `failed` counter. -/
def unit_test_end (s : State) (name : String) : State × Nat :=
  (if s.is_silent then s
   else { s with output :=
           s.output ++ [Line.summary name s.passed (s.passed + s.failed)] },
   s.failed)

/-- C double negation `!!x`: 0 when `x = 0`, otherwise 1. -/
def bangBang (n : Nat) : Nat := if n = 0 then 0 else 1

/-- The state in which the suite body starts: the globals at their initial
values with the `-s` flag applied, after `unit_test_start("libforth")`. -/
def suiteInit (silent : Bool) : State :=
  unit_test_start { initState with is_silent := silent } "libforth"

/-- The whole suite as `main` runs it (unit.c lines 207-378):
`unit_test_start`, the body, and on normal completion the exit status
`!!unit_test_end("libforth")` (line 378).  A `must` failure inside the
body exits the process with `exit(-1)` instead.  The flag `silent` is the
`-s` option. -/
def runSuite (silent : Bool) (cmds : List Cmd) : State × Int :=
  match runCmds (suiteInit silent) cmds with
  | (s2, none) => ((unit_test_end s2 "libforth").1,
                   (bangBang (unit_test_end s2 "libforth").2 : Int))
  | (s2, some e) => (s2, e)

/-- Whether an evaluation behaviour counts as a pass for the tally: a
normally-completed true expression passes, everything else fails. -/
def evPass : Eval → Bool
  | Eval.ok b => b
  | Eval.signal _ => false

end UnitHarness

namespace UnitHarness

/-! ### Closed-form characterisation of one `test` invocation -/

theorem runTest_passed (s : State) (l : Nat) (e : String) (ev : Eval) :
    (runTest s l e ev).passed = if evPass ev then s.passed + 1 else s.passed := by
  cases ev with
  | ok b =>
      cases b <;>
        simp [runTest, evalPointState, testEntry, okBranch, unit_tester,
              testExit, evPass]
  | signal n =>
      simp [runTest, evalPointState, testEntry, signalBranch, sig_abrt_handler,
            print_caught_signal_name, unit_tester, testExit, evPass]
      split <;> simp

theorem runTest_failed (s : State) (l : Nat) (e : String) (ev : Eval) :
    (runTest s l e ev).failed = if evPass ev then s.failed else s.failed + 1 := by
  cases ev with
  | ok b =>
      cases b <;>
        simp [runTest, evalPointState, testEntry, okBranch, unit_tester,
              testExit, evPass]
  | signal n =>
      simp [runTest, evalPointState, testEntry, signalBranch, sig_abrt_handler,
            print_caught_signal_name, unit_tester, testExit, evPass]
      split <;> simp

theorem runTest_current_result (s : State) (l : Nat) (e : String) (ev : Eval) :
    (runTest s l e ev).current_result =
      match ev with
      | Eval.ok b => b
      | Eval.signal _ => s.current_result := by
  cases ev with
  | ok b =>
      cases b <;>
        simp [runTest, evalPointState, testEntry, okBranch, unit_tester, testExit]
  | signal n =>
      simp [runTest, evalPointState, testEntry, signalBranch, sig_abrt_handler,
            print_caught_signal_name, unit_tester, testExit]
      split <;> simp

theorem runTest_jmpbuf (s : State) (l : Nat) (e : String) (ev : Eval) :
    (runTest s l e ev).jmpbuf_active = false := by
  cases ev <;> simp [runTest, testExit]

theorem runTest_disposition (s : State) (l : Nat) (e : String) (ev : Eval) :
    (runTest s l e ev).disposition = Disposition.dfl := by
  cases ev <;> simp [runTest, testExit]

theorem runTest_is_silent (s : State) (l : Nat) (e : String) (ev : Eval) :
    (runTest s l e ev).is_silent = s.is_silent := by
  cases ev with
  | ok b =>
      cases b <;>
        simp [runTest, evalPointState, testEntry, okBranch, unit_tester, testExit]
  | signal n =>
      simp [runTest, evalPointState, testEntry, signalBranch, sig_abrt_handler,
            print_caught_signal_name, unit_tester, testExit]
      split <;> simp

theorem runTest_color (s : State) (l : Nat) (e : String) (ev : Eval) :
    (runTest s l e ev).color_on = s.color_on := by
  cases ev with
  | ok b =>
      cases b <;>
        simp [runTest, evalPointState, testEntry, okBranch, unit_tester, testExit]
  | signal n =>
      simp [runTest, evalPointState, testEntry, signalBranch, sig_abrt_handler,
            print_caught_signal_name, unit_tester, testExit]
      split <;> simp

theorem runTest_caught_signal (s : State) (l : Nat) (e : String) (ev : Eval) :
    (runTest s l e ev).caught_signal =
      match ev with
      | Eval.ok _ => s.caught_signal
      | Eval.signal n => n := by
  cases ev with
  | ok b =>
      cases b <;>
        simp [runTest, evalPointState, testEntry, okBranch, unit_tester, testExit]
  | signal n =>
      simp [runTest, evalPointState, testEntry, signalBranch, sig_abrt_handler,
            print_caught_signal_name, unit_tester, testExit]
      split <;> simp

theorem runTest_current_expr (s : State) (l : Nat) (e : String) (ev : Eval) :
    (runTest s l e ev).current_expr = e := by
  cases ev with
  | ok b =>
      cases b <;>
        simp [runTest, evalPointState, testEntry, okBranch, unit_tester, testExit]
  | signal n =>
      simp [runTest, evalPointState, testEntry, signalBranch, sig_abrt_handler,
            print_caught_signal_name, unit_tester, testExit]
      split <;> simp

theorem runTest_current_line (s : State) (l : Nat) (e : String) (ev : Eval) :
    (runTest s l e ev).current_line =
      match ev with
      | Eval.ok _ => l
      | Eval.signal _ => 0 := by
  cases ev with
  | ok b =>
      cases b <;>
        simp [runTest, evalPointState, testEntry, okBranch, unit_tester, testExit]
  | signal n =>
      simp [runTest, evalPointState, testEntry, signalBranch, sig_abrt_handler,
            print_caught_signal_name, unit_tester, testExit]

theorem runTest_output_silent (s : State) (l : Nat) (e : String) (ev : Eval)
    (h : s.is_silent = true) : (runTest s l e ev).output = s.output := by
  cases ev with
  | ok b =>
      cases b <;>
        simp [runTest, evalPointState, testEntry, okBranch, unit_tester,
              testExit, h]
  | signal n =>
      simp [runTest, evalPointState, testEntry, signalBranch, sig_abrt_handler,
            print_caught_signal_name, unit_tester, testExit, h]

end UnitHarness

namespace UnitHarness

/-! ### Helper lemmas for `print_must`, `runMust`, `runCmds` -/

theorem print_must_passed (s : State) (e : String) :
    (print_must s e).passed = s.passed := by
  unfold print_must; split <;> rfl

theorem print_must_failed (s : State) (e : String) :
    (print_must s e).failed = s.failed := by
  unfold print_must; split <;> rfl

theorem print_must_is_silent (s : State) (e : String) :
    (print_must s e).is_silent = s.is_silent := by
  unfold print_must; split <;> rfl

/-- The observable projection of the harness state: every global except
the silent flag and the output stream. -/
def obs (s : State) :
    Nat × Nat × Bool × Bool × Nat × Bool × String × Int × Disposition :=
  (s.passed, s.failed, s.color_on, s.jmpbuf_active, s.current_line,
   s.current_result, s.current_expr, s.caught_signal, s.disposition)

theorem obs_print_must (s : State) (e : String) :
    obs (print_must s e) = obs s := by
  unfold obs print_must; split <;> rfl

theorem obs_runTest_congr (s t : State) (l : Nat) (e : String) (ev : Eval)
    (h : obs s = obs t) : obs (runTest s l e ev) = obs (runTest t l e ev) := by
  simp only [obs, Prod.mk.injEq] at h ⊢
  obtain ⟨h1, h2, h3, h4, h5, h6, h7, h8, h9⟩ := h
  cases ev <;>
    simp [runTest_passed, runTest_failed, runTest_color, runTest_jmpbuf,
          runTest_current_line, runTest_current_result, runTest_current_expr,
          runTest_caught_signal, runTest_disposition, h1, h2, h3, h6, h8]

theorem runMust_fst (s : State) (l : Nat) (e : String) (ev : Eval) :
    (runMust s l e ev).1 = runTest (print_must s e) l e ev := by
  by_cases h : (runTest (print_must s e) l e ev).current_result = true <;>
    simp [runMust, h]

theorem runMust_snd (s : State) (l : Nat) (e : String) (ev : Eval) :
    (runMust s l e ev).2 =
      if (runTest (print_must s e) l e ev).current_result then none
      else some (-1) := by
  by_cases h : (runTest (print_must s e) l e ev).current_result = true <;>
    simp [runMust, h]

theorem runMust_congr (s t : State) (l : Nat) (e : String) (ev : Eval)
    (h : obs s = obs t) :
    obs (runMust s l e ev).1 = obs (runMust t l e ev).1 ∧
    (runMust s l e ev).2 = (runMust t l e ev).2 := by
  have hp : obs (print_must s e) = obs (print_must t e) := by
    rw [obs_print_must, obs_print_must, h]
  have hr := obs_runTest_congr _ _ l e ev hp
  have hres : (runTest (print_must s e) l e ev).current_result =
      (runTest (print_must t e) l e ev).current_result :=
    congrArg (fun p => p.2.2.2.2.2.1) hr
  refine ⟨?_, ?_⟩
  · rw [runMust_fst, runMust_fst]; exact hr
  · rw [runMust_snd, runMust_snd, hres]

theorem runCmds_congr (cmds : List Cmd) : ∀ s t : State, obs s = obs t →
    obs (runCmds s cmds).1 = obs (runCmds t cmds).1 ∧
    (runCmds s cmds).2 = (runCmds t cmds).2 := by
  induction cmds with
  | nil => intro s t h; exact ⟨h, rfl⟩
  | cons c cs ih =>
      intro s t h
      cases c with
      | test l e ev =>
          simpa only [runCmds] using ih _ _ (obs_runTest_congr s t l e ev h)
      | must l e ev =>
          obtain ⟨h1, h2⟩ := runMust_congr s t l e ev h
          rcases hms : runMust s l e ev with ⟨s1, o⟩
          rcases hmt : runMust t l e ev with ⟨t1, o'⟩
          rw [hms, hmt] at h1 h2
          simp only at h1 h2
          subst h2
          cases o with
          | none => simpa only [runCmds, hms, hmt] using ih _ _ h1
          | some x => simp only [runCmds, hms, hmt]; exact ⟨h1, trivial⟩

theorem runMust_output_silent (s : State) (l : Nat) (e : String) (ev : Eval)
    (h : s.is_silent = true) : (runMust s l e ev).1.output = s.output := by
  rw [runMust_fst]
  have hp : print_must s e = s := by unfold print_must; rw [h]; rfl
  rw [hp, runTest_output_silent _ _ _ _ h]

theorem runMust_is_silent (s : State) (l : Nat) (e : String) (ev : Eval) :
    (runMust s l e ev).1.is_silent = s.is_silent := by
  rw [runMust_fst, runTest_is_silent, print_must_is_silent]

theorem runCmds_silent (cmds : List Cmd) : ∀ s : State, s.is_silent = true →
    (runCmds s cmds).1.output = s.output ∧
    (runCmds s cmds).1.is_silent = true := by
  induction cmds with
  | nil => intro s h; exact ⟨rfl, h⟩
  | cons c cs ih =>
      intro s h
      cases c with
      | test l e ev =>
          have hs : (runTest s l e ev).is_silent = true := by
            rw [runTest_is_silent]; exact h
          have := ih (runTest s l e ev) hs
          simpa only [runCmds, runTest_output_silent s l e ev h] using this
      | must l e ev =>
          rcases hms : runMust s l e ev with ⟨s1, o⟩
          have ho : s1.output = s.output := by
            have := runMust_output_silent s l e ev h; rw [hms] at this; exact this
          have hsil : s1.is_silent = true := by
            have := runMust_is_silent s l e ev; rw [hms] at this
            simp only at this; rw [this]; exact h
          cases o with
          | none =>
              have := ih s1 hsil
              simp only [runCmds, hms]
              exact ⟨by rw [this.1, ho], this.2⟩
          | some x => simp only [runCmds, hms]; exact ⟨ho, hsil⟩

end UnitHarness

namespace UnitHarness

/-- A sequence of plain `test` invocations (line, expression text,
evaluation behaviour), run in program order. -/
def runTests (s : State) : List (Nat × String × Eval) → State
  | [] => s
  | (l, e, ev) :: rest => runTests (runTest s l e ev) rest

theorem runTests_tally (seq : List (Nat × String × Eval)) : ∀ s : State,
    (runTests s seq).passed + (runTests s seq).failed =
      s.passed + s.failed + seq.length := by
  induction seq with
  | nil => intro s; simp [runTests]
  | cons p rest ih =>
      intro s
      rcases p with ⟨l, e, ev⟩
      have hstep := ih (runTest s l e ev)
      simp only [runTests] at hstep ⊢
      rw [hstep, runTest_passed, runTest_failed]
      cases hv : evPass ev <;> simp <;> omega

theorem sig_lookup_length : sig_lookup.length = 257 := by
  simp [sig_lookup, MAX_SIGNALS]

theorem sig_lookup_getD (i : Nat) (h : i < 257) :
    sig_lookup.getD i none = sig_lookup_entry i := by
  have hl : i < sig_lookup.length := by rw [sig_lookup_length]; exact h
  rw [List.getD_eq_getElem _ _ hl]
  simp [sig_lookup, MAX_SIGNALS]

end UnitHarness

namespace UnitHarness

theorem unit_test_end_passed (s : State) (name : String) :
    (unit_test_end s name).1.passed = s.passed := by
  unfold unit_test_end; split <;> rfl

theorem unit_test_end_failed (s : State) (name : String) :
    (unit_test_end s name).1.failed = s.failed := by
  unfold unit_test_end; split <;> rfl

theorem unit_test_end_snd (s : State) (name : String) :
    (unit_test_end s name).2 = s.failed := rfl

theorem unit_test_end_output_silent (s : State) (name : String)
    (h : s.is_silent = true) : (unit_test_end s name).1.output = s.output := by
  unfold unit_test_end; rw [h]; rfl

/-! ### The claims -/

/-- Claim C1, settled as a code bug shown at its failing input: when a
passing assertion has left `current_result = 1` and the next `test` is
interrupted by a caught SIGABRT, the tally records a failure but
`current_result` keeps its stale value `true`, because line 118 of
`unit.c` stores the result of `unit_tester(0, ...)` into `current_line`
instead of `current_result`; consequently a `must` interrupted the same
way does not terminate the process (its `exit(-1)` is never reached). -/
theorem C1_signal_path_keeps_stale_result :
    (runTest (runTest initState 1 "a" (Eval.ok true)) 2 "b"
        (Eval.signal 6)).current_result = true ∧
    (runTest (runTest initState 1 "a" (Eval.ok true)) 2 "b"
        (Eval.signal 6)).failed = 1 ∧
    (runMust (runTest initState 1 "a" (Eval.ok true)) 3 "m"
        (Eval.signal 6)).2 = none := by
  refine ⟨?_, ?_, ?_⟩
  · rw [runTest_current_result, runTest_current_result]
  · rw [runTest_failed, runTest_failed]; rfl
  · rw [runMust_snd, runTest_current_result]
    have hpm : (print_must (runTest initState 1 "a" (Eval.ok true))
        "m").current_result = true := by
      unfold print_must; split <;> rw [runTest_current_result]
    rw [hpm]
    rfl

/-- Claim C2 counterexample: a completed suite run with two failed
assertions has exit status 1, not the failed count 2. -/
theorem C2_counterexample_two_failures :
    (runSuite false [Cmd.test 1 "a" (Eval.ok false),
                     Cmd.test 2 "b" (Eval.ok false)]).1.failed = 2 ∧
    (runSuite false [Cmd.test 1 "a" (Eval.ok false),
                     Cmd.test 2 "b" (Eval.ok false)]).2 = 1 ∧
    (1 : Int) ≠ 2 := by
  refine ⟨by decide, by decide, by decide⟩

/-- Claim C2 as amended: for every completed suite run (no `must`
failure), the exit status is the C double negation of the failed counter,
0 when all assertions passed and 1 when one or more failed, however many
failed. -/
theorem C2_amended_exit_status (silent : Bool) (cmds : List Cmd)
    (h : (runCmds (suiteInit silent) cmds).2 = none) :
    (runSuite silent cmds).2 =
      if (runCmds (suiteInit silent) cmds).1.failed = 0 then 0 else 1 := by
  unfold runSuite
  rcases hx : runCmds (suiteInit silent) cmds with ⟨s2, o⟩
  rw [hx] at h
  simp only at h
  subst h
  simp only [unit_test_end_snd]
  unfold bangBang
  split <;> simp

/-- Witness for `C2_amended_exit_status` at a concrete completed run. -/
theorem C2_amended_exit_status_witness :
    (runSuite false [Cmd.test 1 "a" (Eval.ok false)]).2 =
      if (runCmds (suiteInit false)
            [Cmd.test 1 "a" (Eval.ok false)]).1.failed = 0
      then 0 else 1 :=
  C2_amended_exit_status false [Cmd.test 1 "a" (Eval.ok false)] (by decide)

/-- Claim C3: every `test` or `must` evaluation increments exactly one of
the two counters exactly once — never both, never neither — on both the
normal and the caught-signal path, and a sequence of N `test` calls from
the initial state ends with passed + failed = N. -/
theorem C3_tally_exactly_one_increment :
    (∀ (s : State) (l : Nat) (e : String) (ev : Eval),
       ((runTest s l e ev).passed + (runTest s l e ev).failed =
          s.passed + s.failed + 1) ∧
       ((runTest s l e ev).passed = s.passed + 1 ∧
          (runTest s l e ev).failed = s.failed ∨
        (runTest s l e ev).passed = s.passed ∧
          (runTest s l e ev).failed = s.failed + 1) ∧
       ((runMust s l e ev).1.passed + (runMust s l e ev).1.failed =
          s.passed + s.failed + 1)) ∧
    (∀ seq : List (Nat × String × Eval),
       (runTests initState seq).passed + (runTests initState seq).failed =
         seq.length) := by
  constructor
  · intro s l e ev
    refine ⟨?_, ?_, ?_⟩
    · rw [runTest_passed, runTest_failed]
      by_cases hv : evPass ev = true <;> simp [hv] <;> omega
    · rw [runTest_passed, runTest_failed]
      by_cases hv : evPass ev = true <;> simp [hv]
    · rw [runMust_fst, runTest_passed, runTest_failed, print_must_passed,
          print_must_failed]
      by_cases hv : evPass ev = true <;> simp [hv] <;> omega
  · intro seq
    have h := runTests_tally seq initState
    simpa [initState] using h

/-- Claim C4, settled as a code bug shown at its failing input: a `must`
whose evaluation is interrupted by a caught SIGABRT while the previous
assertion passed records a failure in the tally yet does not terminate the
process (same line-118 slip as C1), so the assertion after it is still
evaluated and counted: the run reaches the summary with passed = 2,
failed = 1 and exit status 1. -/
theorem C4_failed_must_does_not_always_halt :
    (runSuite false [Cmd.test 1 "a" (Eval.ok true),
                     Cmd.must 2 "m" (Eval.signal 6),
                     Cmd.test 3 "c" (Eval.ok true)]).1.passed = 2 ∧
    (runSuite false [Cmd.test 1 "a" (Eval.ok true),
                     Cmd.must 2 "m" (Eval.signal 6),
                     Cmd.test 3 "c" (Eval.ok true)]).1.failed = 1 ∧
    (runSuite false [Cmd.test 1 "a" (Eval.ok true),
                     Cmd.must 2 "m" (Eval.signal 6),
                     Cmd.test 3 "c" (Eval.ok true)]).2 = 1 := by
  refine ⟨by decide, by decide, by decide⟩

/-- Claim C5: after a signal is caught inside an armed window, the
else-branch of the `test` macro re-installs `sig_abrt_handler` (it is the
installed disposition when that branch finishes), and the evaluation of
every subsequent `test` or `must` assertion again runs with the custom
handler installed and the trap armed, whatever state the previous
assertion left behind. -/
theorem C5_handler_reinstalled_after_catch :
    (∀ (s : State) (n : Int),
       (signalBranch s n).disposition = Disposition.handler) ∧
    (∀ (s : State) (l : Nat) (e : String),
       (evalPointState s l e).disposition = Disposition.handler) :=
  ⟨fun _ _ => rfl, fun _ _ _ => rfl⟩

end UnitHarness

namespace UnitHarness

/-- Claim C6: for every input sequence of assertion outcomes, running the
suite with silent mode on versus off yields identical passed and failed
counters and an identical exit status, and the silent run emits no output
lines at all (in particular no per-assertion lines). -/
theorem C6_silent_mode_noninterference (cmds : List Cmd) :
    (runSuite true cmds).1.passed = (runSuite false cmds).1.passed ∧
    (runSuite true cmds).1.failed = (runSuite false cmds).1.failed ∧
    (runSuite true cmds).2 = (runSuite false cmds).2 ∧
    (runSuite true cmds).1.output = [] := by
  have hobs : obs (suiteInit true) = obs (suiteInit false) := rfl
  obtain ⟨h1, h2⟩ := runCmds_congr cmds (suiteInit true) (suiteInit false) hobs
  have hsil := runCmds_silent cmds (suiteInit true) rfl
  rcases hT : runCmds (suiteInit true) cmds with ⟨sT, oT⟩
  rcases hF : runCmds (suiteInit false) cmds with ⟨sF, oF⟩
  rw [hT, hF] at h1 h2
  rw [hT] at hsil
  simp only at h1 h2 hsil
  have hpassed : sT.passed = sF.passed := congrArg (fun p => p.1) h1
  have hfailed : sT.failed = sF.failed := congrArg (fun p => p.2.1) h1
  subst h2
  unfold runSuite
  rw [hT, hF]
  cases oT with
  | none =>
      refine ⟨?_, ?_, ?_, ?_⟩
      · rw [unit_test_end_passed, unit_test_end_passed, hpassed]
      · rw [unit_test_end_failed, unit_test_end_failed, hfailed]
      · simp only [unit_test_end_snd, hfailed]
      · rw [unit_test_end_output_silent _ _ hsil.2, hsil.1]; rfl
  | some x =>
      refine ⟨hpassed, hfailed, rfl, ?_⟩
      rw [hsil.1]; rfl

/-- Claim C7: for every caught signal number n, the diagnostic name is the
mapped human-readable name when n is one of the six mapped C89 signal
numbers (2, 4, 6, 8, 11, 15 on this platform), and "UNKNOWN SIGNAL" for
every other n — negative, zero, at or above MAX_SIGNALS, or in-range with
no entry — and the guarded array access stays inside the 257-element
array, so the lookup never reads out of bounds or uses a null entry. -/
theorem C7_signal_name_total_lookup (n : Int) :
    sig_name_of n =
      (if n = 2 then "SIGINT" else if n = 4 then "SIGILL"
       else if n = 6 then "SIGABRT" else if n = 8 then "SIGFPE"
       else if n = 11 then "SIGSEGV" else if n = 15 then "SIGTERM"
       else "UNKNOWN SIGNAL") ∧
    (0 < n → n < (MAX_SIGNALS : Int) → n.toNat < sig_lookup.length) := by
  have hM : ((MAX_SIGNALS : Nat) : Int) = 256 := by decide
  constructor
  · by_cases h2 : n = 2
    · subst h2; decide
    · by_cases h4 : n = 4
      · subst h4; decide
      · by_cases h6 : n = 6
        · subst h6; decide
        · by_cases h8 : n = 8
          · subst h8; decide
          · by_cases h11 : n = 11
            · subst h11; decide
            · by_cases h15 : n = 15
              · subst h15; decide
              · rw [if_neg h2, if_neg h4, if_neg h6, if_neg h8, if_neg h11,
                    if_neg h15]
                unfold sig_name_of
                by_cases hr : 0 < n ∧ n < (MAX_SIGNALS : Int)
                · rw [if_pos hr]
                  obtain ⟨hr1, hr2⟩ := hr
                  rw [hM] at hr2
                  have h0 : n.toNat < 257 := by omega
                  rw [sig_lookup_getD _ h0]
                  unfold sig_lookup_entry
                  rw [if_neg (by omega : n.toNat ≠ 2),
                      if_neg (by omega : n.toNat ≠ 4),
                      if_neg (by omega : n.toNat ≠ 6),
                      if_neg (by omega : n.toNat ≠ 8),
                      if_neg (by omega : n.toNat ≠ 11),
                      if_neg (by omega : n.toNat ≠ 15)]
                  rfl
                · rw [if_neg hr]; rfl
  · intro hp hb
    rw [sig_lookup_length]
    rw [hM] at hb
    omega

/-- Witness for `C7_signal_name_total_lookup` at the concrete signal
number 6, SIGABRT. -/
theorem C7_signal_name_total_lookup_witness :
    sig_name_of 6 = "SIGABRT" ∧ (6 : Int).toNat < sig_lookup.length :=
  ⟨by have h := (C7_signal_name_total_lookup 6).1; norm_num at h; exact h,
   (C7_signal_name_total_lookup 6).2 (by decide) (by decide)⟩

/-- Claim C8: `main` returns the double negation `!!` of the failed
counter returned by `unit_test_end`: exactly 0 when no assertion failed,
exactly 1 when one or more failed, so the normal-completion exit status
never exceeds 1, however many assertions fail. -/
theorem C8_main_returns_double_negation (s : State) (name : String) :
    bangBang (unit_test_end s name).2 = (if s.failed = 0 then 0 else 1) ∧
    bangBang (unit_test_end s name).2 ≤ 1 := by
  rw [unit_test_end_snd]
  unfold bangBang
  exact ⟨rfl, by split <;> omega⟩

/-- Claim C9: after every `test` macro completes by any path, the trap is
fully disarmed — `jmpbuf_active = false` and the SIGABRT disposition reset
to the default — and protection for the next assertion comes from the
macro entry itself, which re-installs the handler and arms the trap before
the expression is evaluated. -/
theorem C9_trap_fully_disarmed_between_assertions :
    (∀ (s : State) (l : Nat) (e : String) (ev : Eval),
       (runTest s l e ev).jmpbuf_active = false ∧
       (runTest s l e ev).disposition = Disposition.dfl) ∧
    (∀ (s : State) (l : Nat) (e : String),
       (evalPointState s l e).disposition = Disposition.handler ∧
       (evalPointState s l e).jmpbuf_active = true) :=
  ⟨fun s l e ev => ⟨runTest_jmpbuf s l e ev, runTest_disposition s l e ev⟩,
   fun _ _ _ => ⟨rfl, rfl⟩⟩

/-- Claim C10: `sig_abrt_handler` writes the delivered signal number into
`caught_signal` unconditionally; when no recovery point is armed it only
performs that mutation and returns without the non-local transfer. -/
theorem C10_handler_always_records_signal (s : State) (sig : Int) :
    ((sig_abrt_handler s sig).1.caught_signal = sig) ∧
    (s.jmpbuf_active = false →
       sig_abrt_handler s sig = ({ s with caught_signal := sig }, false)) := by
  constructor
  · by_cases h : s.jmpbuf_active = true <;> simp [sig_abrt_handler, h]
  · intro h; simp [sig_abrt_handler, h]

/-- Witness for `C10_handler_always_records_signal` at the initial state
(where no recovery point is armed) and signal number 6. -/
theorem C10_handler_always_records_signal_witness :
    ((sig_abrt_handler initState 6).1.caught_signal = 6) ∧
    (sig_abrt_handler initState 6 = ({ initState with caught_signal := 6 },
        false)) :=
  ⟨(C10_handler_always_records_signal initState 6).1,
   (C10_handler_always_records_signal initState 6).2 rfl⟩

end UnitHarness
